import Mathlib

/-!
Verification of `mesos_http_api`
(source: `src/example.com/project/module/mesos_client_service/mesos_client_service.go`).

The file shallowly embeds the Go program:

* the JSON data model (`MesosSlaveAttributes`, `MesosSlave`, `MesosState`)
  mirrors the Go structs; `float64` fields are modelled as `ℚ` (the program
  only ever compares them for exact equality with `0.0`, which `ℚ` models
  faithfully);
* the network is an explicit environment `HttpRequest → NetAnswer` giving,
  for each outbound request, either a transport failure or a response body
  that does or does not decode as `MesosState`;
* effectful functions return their result together with the list of
  requests they issued, and abnormal termination (Go `panic`, `os.Exit`)
  is an explicit constructor rather than a hidden effect;
* the two goroutines of the program (`asyncQueryRegistration` and the
  `select` in `waitForMesosSlaveRegistration`) are modelled as a single
  deterministic discrete-time run (`runFrom`) under the natural schedule:
  channel operations and scheduling are instantaneous, each polling tick
  has an environment-chosen duration in seconds, and a real-time tie
  between a timer and a channel arrival (a measure-zero coincidence) is
  resolved toward the timer, matching the spec's "strictly before".
-/

/-- Go struct `MesosSlaveAttributes` (JSON keys `host`, `instance_type`,
`publicip`, `rack`, `privateip`). -/
structure MesosSlaveAttributes where
  Host : String
  InstanceType : String
  PublicIP : String
  Rack : String
  PrivateIP : String

/-- Go struct `MesosSlave` (JSON keys `active`, `pid`, `attributes`,
`registered_time`). -/
structure MesosSlave where
  IsActive : Bool
  MesosPid : String
  Attributes : MesosSlaveAttributes
  RegisteredTime : ℚ

/-- Go struct `MesosState` (JSON keys `elected_time`, `leader`, `pid`,
`slaves`). An absent `slaves` field decodes to the nil slice, modelled
as `[]`; an absent `elected_time` decodes to `0`. -/
structure MesosState where
  ElectedTime : ℚ
  Leader : String
  Pid : String
  Slaves : List MesosSlave

/-- One outbound HTTP request as built by `queryMesosState`:
`http.NewRequest("POST", url, strings.NewReader(""))`. -/
structure HttpRequest where
  method : String
  url : String
  body : String
deriving DecidableEq

/-- The environment's answer to one outbound request:
either the transport fails (`client.Do` returns an error), or a response
body arrives that does (`some`) or does not (`none`) decode as
`MesosState`. -/
inductive NetAnswer where
  | transportFail
  | body (decoded : Option MesosState)

/-- Result of one call to `queryMesosState` (lines 72-103):
`ok` = `(mesosState, nil)`, `failed` = `(nil, err)` from the JSON decoder,
`panicked` = the function panicked (the `client.Do` error branch). -/
inductive QueryReturn where
  | ok (state : MesosState)
  | failed
  | panicked

/-- The request `queryMesosState` builds for a URL: POST with empty body. -/
def stateRequest (url : String) : HttpRequest :=
  { method := "POST", url := url, body := "" }

/-- URL construction of `isSlaveRegistered` (lines 106 and 120):
`fmt.Sprintf("http://%s/%s", hostPort, apiEndpoint)`. -/
def mkUrl (hostPort apiEndpoint : String) : String :=
  "http://" ++ hostPort ++ "/" ++ apiEndpoint

/-- Embedding of `queryMesosState` (lines 72-103): builds one POST request
with empty body for the given URL, issues it (the returned list is the
trace of issued requests), and decodes the response. A transport error
makes the Go function panic; a decode error returns `(nil, err)`. -/
def queryMesosState (env : HttpRequest → NetAnswer) (url : String) :
    QueryReturn × List HttpRequest :=
  match env (stateRequest url) with
  | .transportFail => (.panicked, [stateRequest url])
  | .body none => (.failed, [stateRequest url])
  | .body (some s) => (.ok s, [stateRequest url])

/-- Go `strings.Split(s, "@")` on the character list: the maximal
substrings between occurrences of `'@'`, in order; a string with no
`'@'` yields the one-element list `[s]`. -/
def splitAtSignAux : List Char → List Char → List (List Char)
  | [], acc => [acc.reverse]
  | c :: rest, acc =>
      if c = '@' then acc.reverse :: splitAtSignAux rest []
      else splitAtSignAux rest (c :: acc)

/-- Go `strings.Split(s, "@")` (used at line 119 on the `leader` field). -/
def splitAtSign (s : String) : List String :=
  (splitAtSignAux s.toList []).map List.asString

/-- The worker scan of `isSlaveRegistered` (lines 128-133): true iff some
slave's `attributes.privateip` equals the target IP (Go `==` on strings,
exact and case-sensitive). -/
def scanSlaves (slaves : List MesosSlave) (agentIP : String) : Bool :=
  slaves.any fun slave => slave.Attributes.PrivateIP == agentIP

/-- Outcome of one call to `isSlaveRegistered` (one polling tick):
a boolean return, `os.Exit(1)` (line 111), or a runtime panic
(transport failure inside `queryMesosState`, the out-of-range index
`strings.Split(leader, "@")[1]` at line 119, or the nil-pointer
dereference of `stateData.Slaves` at line 128 after the error of the
second query was ignored at line 122). -/
inductive TickResult where
  | result (b : Bool)
  | exit1
  | panicked
deriving DecidableEq

/-- True iff the tick returned normally with a boolean. -/
def TickResult.completed : TickResult → Bool
  | .result _ => true
  | _ => false

/-- Embedding of `isSlaveRegistered` (lines 105-134), returning its
outcome together with the trace of issued requests:

* query `http://{hostPort}/{api}`; a decode error is `os.Exit(1)`
  (line 111), a transport error a panic;
* if `electedTime == 0 && leader != pid`, take `strings.Split(leader,"@")[1]`
  (panics when `leader` has no `'@'`) and query the leader once more;
  the error of that second query is ignored (line 122), so a failed second
  decode leaves `stateData = nil` and the scan at line 128 panics;
* scan the resulting snapshot's slave list for the agent IP. -/
def isSlaveRegistered (env : HttpRequest → NetAnswer)
    (mesosHostPort mesosApiEndpoint agentIP : String) :
    TickResult × List HttpRequest :=
  match queryMesosState env (mkUrl mesosHostPort mesosApiEndpoint) with
  | (.panicked, rs) => (.panicked, rs)
  | (.failed, rs) => (.exit1, rs)
  | (.ok stateData, rs) =>
    if stateData.ElectedTime = 0 ∧ stateData.Leader ≠ stateData.Pid then
      match (splitAtSign stateData.Leader)[1]? with
      | none => (.panicked, rs)
      | some newHostPort =>
        match queryMesosState env (mkUrl newHostPort mesosApiEndpoint) with
        | (.panicked, rs2) => (.panicked, rs ++ rs2)
        | (.failed, rs2) => (.panicked, rs ++ rs2)
        | (.ok stateData2, rs2) =>
            (.result (scanSlaves stateData2.Slaves agentIP), rs ++ rs2)
    else
      (.result (scanSlaves stateData.Slaves agentIP), rs)

/-- One executed polling tick of `asyncQueryRegistration`: its start and
finish times (seconds since the run began), the requests it issued and
its outcome. -/
structure TickRecord where
  start : ℕ
  finish : ℕ
  requests : List HttpRequest
  res : TickResult

/-- Observable trace of one run of `waitForMesosSlaveRegistration`
together with its background goroutine, under the natural schedule:

* `ticks` — the polling ticks that were executed, in order;
* `resultSendTime` — time of the (at most one) send on the capacity-1
  result channel `stateChan` (line 146);
* `doneSendTime` — time of the (at most one) send on the capacity-1
  cancellation channel `doneChan` (line 186);
* `doneClosed` — whether `close(doneChan)` (line 187) was reached;
* `outCloseTime` — time of `close(out)` in the loop (line 152), `none`
  when the loop never reached it (the process aborted first);
* `ret` — the value and time `waitForMesosSlaveRegistration` returned,
  `none` when a tick panic or `os.Exit` killed the process before the
  function could return. -/
structure RunTrace where
  ticks : List TickRecord
  resultSendTime : Option ℕ
  doneSendTime : Option ℕ
  doneClosed : Bool
  outCloseTime : Option ℕ
  ret : Option (Bool × ℕ)

/-- One run of the loop of `asyncQueryRegistration` (lines 141-165) raced
against the supervisor's `select` (lines 180-185), starting tick `i` at
time `t`, with the environment giving each tick its network answers and
its duration in seconds. Derived from the code under the natural
schedule (channel operations and scheduling instantaneous, timer ties
resolved toward the timer):

* the tick runs `isSlaveRegistered`; a panic or `os.Exit(1)` inside it
  aborts the whole process at the tick's finish time (a Go panic in a
  goroutine kills the process); the supervisor has returned
  `(false, 90)` beforehand only if the 90s timeout fired strictly
  before the abort;
* on a match finishing at time `f`: the loop sends `true` on the
  capacity-1 `stateChan` (never blocking: it is the only send of the
  run and the buffer is empty). If `f < 90` the supervisor receives it,
  returns `(true, f)` and sends/closes `doneChan`; otherwise the
  supervisor already returned `(false, 90)` and sent `doneChan` at 90.
  Either way the loop's `select` then finds `doneChan` ready and runs
  `close(out)` — no further tick starts;
* on a non-match finishing at `f`: the loop's `select` races `doneChan`
  against `time.After(15s)`. A `doneChan` value can only come from the
  supervisor's timeout at 90 (no tick is in flight, so no match send
  can precede it), so the next tick starts at `f + 15` iff
  `f + 15 < 90`; otherwise the loop observes `doneChan` and runs
  `close(out)` at `max f 90`.

The fuel argument only bounds the structural recursion; `90 ≤ t + 15*fuel`
makes the fuel-0 default unreachable, and the top-level entry point
supplies fuel 6 at `t = 0`. -/
def runFrom (env : ℕ → (HttpRequest → NetAnswer) × ℕ)
    (mesosHostPort mapi sip : String) : ℕ → ℕ → ℕ → RunTrace
  | 0, _, _ => ⟨[], none, none, false, none, none⟩
  | fuel + 1, i, t =>
    match isSlaveRegistered (env i).1 mesosHostPort mapi sip with
    | (.result true, reqs) =>
        if t + (env i).2 < 90 then
          ⟨[⟨t, t + (env i).2, reqs, .result true⟩],
            some (t + (env i).2), some (t + (env i).2), true,
            some (t + (env i).2), some (true, t + (env i).2)⟩
        else
          ⟨[⟨t, t + (env i).2, reqs, .result true⟩],
            some (t + (env i).2), some 90, true,
            some (t + (env i).2), some (false, 90)⟩
    | (.result false, reqs) =>
        if t + (env i).2 + 15 < 90 then
          let rest := runFrom env mesosHostPort mapi sip fuel (i + 1)
            (t + (env i).2 + 15)
          { rest with ticks := ⟨t, t + (env i).2, reqs, .result false⟩ :: rest.ticks }
        else
          ⟨[⟨t, t + (env i).2, reqs, .result false⟩],
            none, some 90, true, some (max (t + (env i).2) 90), some (false, 90)⟩
    | (.exit1, reqs) =>
        if 90 < t + (env i).2 then
          ⟨[⟨t, t + (env i).2, reqs, .exit1⟩],
            none, some 90, true, none, some (false, 90)⟩
        else
          ⟨[⟨t, t + (env i).2, reqs, .exit1⟩],
            none, none, false, none, none⟩
    | (.panicked, reqs) =>
        if 90 < t + (env i).2 then
          ⟨[⟨t, t + (env i).2, reqs, .panicked⟩],
            none, some 90, true, none, some (false, 90)⟩
        else
          ⟨[⟨t, t + (env i).2, reqs, .panicked⟩],
            none, none, false, none, none⟩

/-- Embedding of `waitForMesosSlaveRegistration` (lines 168-189): builds
`mesosHostPort = mip ++ ":" ++ mport` (line 176), starts the polling
goroutine and races its result channel against the 90-second timeout.
Fuel 6 covers every possible run: ticks are at least 15 seconds apart
and no tick starts at or after second 90. -/
def waitForMesosSlaveRegistration (env : ℕ → (HttpRequest → NetAnswer) × ℕ)
    (mip mport mapi sip : String) : RunTrace :=
  runFrom env (mip ++ ":" ++ mport) mapi sip 6 0 0

/-! Concrete snapshots and environments used as counterexamples, failing
inputs and witnesses. -/

/-- A leader snapshot (`elected_time` non-zero, `leader == pid`) whose
slave list contains the watched private IP `172.31.34.94`. -/
def leaderMatchState : MesosState :=
  { ElectedTime := 1458344004, Leader := "master@172.31.43.147:5050",
    Pid := "master@172.31.43.147:5050",
    Slaves := [{ IsActive := true, MesosPid := "slave(1)@172.31.34.94:5051",
                 Attributes := { Host := "ip-172-31-34-94", InstanceType := "m3.large",
                                 PublicIP := "52.205.254.68", Rack := "us-east-1a",
                                 PrivateIP := "172.31.34.94" },
                 RegisteredTime := 1458344100 }] }

/-- A leader snapshot with an empty slave list (no match possible). -/
def leaderNoMatchState : MesosState :=
  { ElectedTime := 1458344004, Leader := "master@172.31.43.147:5050",
    Pid := "master@172.31.43.147:5050", Slaves := [] }

/-- A follower snapshot: `elected_time` zero, `leader` pointing at
`10.0.0.2:5050`, answered by a different pid. -/
def followerState : MesosState :=
  { ElectedTime := 0, Leader := "master@10.0.0.2:5050",
    Pid := "slave@10.0.0.5:5050", Slaves := [] }

/-- A snapshot violating the leader invariant in the direction the claim
C3 quantifies over: `elected_time` non-zero but `leader != pid`. -/
def mixedState : MesosState :=
  { ElectedTime := 1, Leader := "master@10.0.0.2:5050",
    Pid := "slave@10.0.0.5:5050", Slaves := [] }

/-- A follower snapshot whose `leader` field has no `'@'` separator. -/
def noAtState : MesosState :=
  { ElectedTime := 0, Leader := "masterWithoutSeparator",
    Pid := "slave@10.0.0.5:5050", Slaves := [] }

/-- Network in which every response body fails to decode. -/
def decodeFailNet : HttpRequest → NetAnswer := fun _ => .body none

/-- Network in which the first query gets the follower snapshot and the
redirected query to the leader `10.0.0.2:5050` gets an undecodable body. -/
def redirectDecodeFailNet : HttpRequest → NetAnswer := fun r =>
  if r.url = "http://10.0.0.2:5050/state" then .body none
  else .body (some followerState)

/-- Run environment: every tick decodes to the matching leader snapshot
and takes 0 seconds. -/
def envMatchFast : ℕ → (HttpRequest → NetAnswer) × ℕ :=
  fun _ => (fun _ => .body (some leaderMatchState), 0)

/-- Run environment: every tick decodes to the empty leader snapshot and
takes 0 seconds (a clean no-match run to the timeout). -/
def envNoMatchFast : ℕ → (HttpRequest → NetAnswer) × ℕ :=
  fun _ => (fun _ => .body (some leaderNoMatchState), 0)

/-- Run environment: every tick decodes to the empty leader snapshot but
takes 200 seconds (a query still in flight when the timeout fires). -/
def envNoMatchSlow : ℕ → (HttpRequest → NetAnswer) × ℕ :=
  fun _ => (fun _ => .body (some leaderNoMatchState), 200)

/-- Run environment: every response body fails to decode, ticks take 0
seconds. -/
def envDecodeFail : ℕ → (HttpRequest → NetAnswer) × ℕ :=
  fun _ => (decodeFailNet, 0)

/-- Run environment: every query fails at the transport and takes 100
seconds (so the first tick spans the 90-second timeout and then panics). -/
def envTransportFailSlow : ℕ → (HttpRequest → NetAnswer) × ℕ :=
  fun _ => (fun _ => .transportFail, 100)



/-! Helper lemmas about `runFrom`, proved by induction on the fuel.
The hypothesis `90 <= t + 15 * fuel` (together with `1 <= fuel`), where it
appears, is the invariant that makes the fuel-0 default unreachable; the
top-level entry point satisfies it with fuel 6 at `t = 0`. -/

theorem runFrom_true_iff (env : ℕ → (HttpRequest → NetAnswer) × ℕ)
    (hp mapi sip : String) : ∀ fuel i t m,
    (runFrom env hp mapi sip fuel i t).ret = some (true, m) ↔
    ((runFrom env hp mapi sip fuel i t).resultSendTime = some m ∧ m < 90) := by
  intro fuel
  induction fuel with
  | zero => intro i t m; simp [runFrom]
  | succ fuel ih =>
    intro i t m
    simp only [runFrom]
    rcases h : isSlaveRegistered (env i).1 hp mapi sip with ⟨res, reqs⟩
    cases res with
    | result b =>
      cases b
      · dsimp only
        split
        · exact ih (i + 1) (t + (env i).2 + 15) m
        · simp
      · dsimp only
        split <;> rename_i hc <;> simp <;> omega
    | exit1 => dsimp only; split <;> simp
    | panicked => dsimp only; split <;> simp

theorem runFrom_false_ret (env : ℕ → (HttpRequest → NetAnswer) × ℕ)
    (hp mapi sip : String) : ∀ fuel i t u,
    (runFrom env hp mapi sip fuel i t).ret = some (false, u) → u = 90 := by
  intro fuel
  induction fuel with
  | zero => intro i t u; simp [runFrom]
  | succ fuel ih =>
    intro i t u
    simp only [runFrom]
    rcases h : isSlaveRegistered (env i).1 hp mapi sip with ⟨res, reqs⟩
    cases res with
    | result b =>
      cases b
      · dsimp only
        split
        · exact ih (i + 1) (t + (env i).2 + 15) u
        · simp <;> omega
      · dsimp only
        split <;> simp <;> omega
    | exit1 => dsimp only; split <;> simp <;> omega
    | panicked => dsimp only; split <;> simp <;> omega

theorem runFrom_ret_total (env : ℕ → (HttpRequest → NetAnswer) × ℕ)
    (hp mapi sip : String) : ∀ fuel i t, 1 ≤ fuel → 90 ≤ t + 15 * fuel →
    (∀ tk ∈ (runFrom env hp mapi sip fuel i t).ticks, tk.res.completed = true) →
    (runFrom env hp mapi sip fuel i t).ret.isSome = true := by
  intro fuel
  induction fuel with
  | zero => intro i t h1; omega
  | succ fuel ih =>
    intro i t _ h2 hok
    simp only [runFrom] at hok ⊢
    rcases h : isSlaveRegistered (env i).1 hp mapi sip with ⟨res, reqs⟩
    rw [h] at hok
    cases res with
    | result b =>
      cases b
      · dsimp only at hok ⊢
        split
        · rename_i hg
          rw [if_pos hg] at hok
          dsimp only at hok ⊢
          apply ih
          · omega
          · omega
          · intro tk htk
            exact hok tk (List.mem_cons_of_mem _ htk)
        · simp
      · dsimp only; split <;> simp
    | exit1 =>
      dsimp only at hok
      split at hok
      · exact absurd (hok _ (List.mem_singleton.mpr rfl)) (by simp [TickResult.completed])
      · exact absurd (hok _ (List.mem_singleton.mpr rfl)) (by simp [TickResult.completed])
    | panicked =>
      dsimp only at hok
      split at hok
      · exact absurd (hok _ (List.mem_singleton.mpr rfl)) (by simp [TickResult.completed])
      · exact absurd (hok _ (List.mem_singleton.mpr rfl)) (by simp [TickResult.completed])

theorem runFrom_match_stops (env : ℕ → (HttpRequest → NetAnswer) × ℕ)
    (hp mapi sip : String) : ∀ fuel i t m,
    (runFrom env hp mapi sip fuel i t).resultSendTime = some m →
    t ≤ m ∧ (runFrom env hp mapi sip fuel i t).outCloseTime = some m ∧
    (∃ pre tkL, (runFrom env hp mapi sip fuel i t).ticks = pre ++ [tkL] ∧
      tkL.finish = m ∧ tkL.res = .result true) ∧
    ∀ tk ∈ (runFrom env hp mapi sip fuel i t).ticks, tk.start ≤ m := by
  intro fuel
  induction fuel with
  | zero => intro i t m; simp [runFrom]
  | succ fuel ih =>
    intro i t m
    simp only [runFrom]
    rcases h : isSlaveRegistered (env i).1 hp mapi sip with ⟨res, reqs⟩
    cases res with
    | result b =>
      cases b
      · dsimp only
        split
        · intro hm
          obtain ⟨h0, h1, ⟨pre, tkL, hticks, hfin, hres⟩, hstarts⟩ :=
            ih (i + 1) (t + (env i).2 + 15) m hm
          refine ⟨by omega, h1, ⟨⟨t, t + (env i).2, reqs, .result false⟩ :: pre, tkL, ?_, hfin, hres⟩, ?_⟩
          · rw [hticks, List.cons_append]
          · intro tk htk
            rcases List.mem_cons.mp htk with h' | h'
            · subst h'; dsimp only; omega
            · exact hstarts tk h'
        · intro hm; simp at hm
      · dsimp only
        split <;>
        · intro hm
          injection hm with hm
          subst hm
          refine ⟨Nat.le_add_right t _, rfl, ⟨[], _, rfl, rfl, rfl⟩, ?_⟩
          intro tk htk
          rw [List.mem_singleton] at htk
          subst htk
          exact Nat.le_add_right t _
    | exit1 => dsimp only; split <;> (intro hm; simp at hm)
    | panicked => dsimp only; split <;> (intro hm; simp at hm)

theorem runFrom_cancel (env : ℕ → (HttpRequest → NetAnswer) × ℕ)
    (hp mapi sip : String) : ∀ fuel i t D, t < 90 →
    (runFrom env hp mapi sip fuel i t).doneSendTime = some D →
    t ≤ D ∧ (∀ tk ∈ (runFrom env hp mapi sip fuel i t).ticks, tk.start ≤ D) ∧
    ∀ c, (runFrom env hp mapi sip fuel i t).outCloseTime = some c →
      ∃ pre tkL, (runFrom env hp mapi sip fuel i t).ticks = pre ++ [tkL] ∧
        c = max D tkL.finish := by
  intro fuel
  induction fuel with
  | zero => intro i t D ht; simp [runFrom]
  | succ fuel ih =>
    intro i t D ht
    simp only [runFrom]
    rcases h : isSlaveRegistered (env i).1 hp mapi sip with ⟨res, reqs⟩
    cases res with
    | result b =>
      cases b
      · dsimp only
        split
        · rename_i hg
          intro hD
          obtain ⟨h0, hstarts, hclose⟩ := ih (i + 1) (t + (env i).2 + 15) D (by omega) hD
          refine ⟨by omega, ?_, ?_⟩
          · intro tk htk
            rcases List.mem_cons.mp htk with h' | h'
            · subst h'; dsimp only; omega
            · exact hstarts tk h'
          · intro c hc
            obtain ⟨pre, tkL, hticks, hmax⟩ := hclose c hc
            exact ⟨⟨t, t + (env i).2, reqs, .result false⟩ :: pre, tkL,
              by rw [hticks, List.cons_append], hmax⟩
        · rename_i hg
          intro hD
          injection hD with hD
          subst hD
          refine ⟨by omega, ?_, ?_⟩
          · intro tk htk
            rw [List.mem_singleton] at htk
            subst htk
            dsimp only
            omega
          · intro c hc
            injection hc with hc
            subst hc
            refine ⟨[], _, rfl, ?_⟩
            dsimp only
            rw [Nat.max_comm]
      · dsimp only
        split
        · rename_i hlt
          intro hD
          injection hD with hD
          subst hD
          refine ⟨Nat.le_add_right t _, ?_, ?_⟩
          · intro tk htk
            rw [List.mem_singleton] at htk
            subst htk
            exact Nat.le_add_right t _
          · intro c hc
            injection hc with hc
            subst hc
            exact ⟨[], _, rfl, (Nat.max_self _).symm⟩
        · rename_i hge
          intro hD
          injection hD with hD
          subst hD
          refine ⟨by omega, ?_, ?_⟩
          · intro tk htk
            rw [List.mem_singleton] at htk
            subst htk
            dsimp only
            omega
          · intro c hc
            injection hc with hc
            subst hc
            refine ⟨[], _, rfl, ?_⟩
            dsimp only
            rw [Nat.max_eq_right (by omega)]
    | exit1 =>
      dsimp only
      split
      · intro hD
        injection hD with hD
        subst hD
        refine ⟨by omega, ?_, ?_⟩
        · intro tk htk
          rw [List.mem_singleton] at htk
          subst htk
          dsimp only
          omega
        · intro c hc; simp at hc
      · intro hD; simp at hD
    | panicked =>
      dsimp only
      split
      · intro hD
        injection hD with hD
        subst hD
        refine ⟨by omega, ?_, ?_⟩
        · intro tk htk
          rw [List.mem_singleton] at htk
          subst htk
          dsimp only
          omega
        · intro c hc; simp at hc
      · intro hD; simp at hD

theorem runFrom_done (env : ℕ → (HttpRequest → NetAnswer) × ℕ)
    (hp mapi sip : String) : ∀ fuel i t b u,
    (runFrom env hp mapi sip fuel i t).ret = some (b, u) →
    ∃ D, (runFrom env hp mapi sip fuel i t).doneSendTime = some D ∧
      (runFrom env hp mapi sip fuel i t).doneClosed = true ∧
      (b = true → D = u) ∧ (b = false → D = 90) := by
  intro fuel
  induction fuel with
  | zero => intro i t b u; simp [runFrom]
  | succ fuel ih =>
    intro i t b u
    simp only [runFrom]
    rcases h : isSlaveRegistered (env i).1 hp mapi sip with ⟨res, reqs⟩
    cases res with
    | result c =>
      cases c
      · dsimp only
        split
        · exact ih (i + 1) (t + (env i).2 + 15) b u
        · intro hret
          injection hret with hret
          injection hret with hb hu
          subst hb; subst hu
          exact ⟨90, rfl, rfl, fun h' => absurd h' (by simp), fun _ => rfl⟩
      · dsimp only
        split
        · intro hret
          injection hret with hret
          injection hret with hb hu
          subst hb; subst hu
          exact ⟨t + (env i).2, rfl, rfl, fun _ => rfl, fun h' => absurd h' (by simp)⟩
        · intro hret
          injection hret with hret
          injection hret with hb hu
          subst hb; subst hu
          exact ⟨90, rfl, rfl, fun h' => absurd h' (by simp), fun _ => rfl⟩
    | exit1 =>
      dsimp only
      split
      · intro hret
        injection hret with hret
        injection hret with hb hu
        subst hb; subst hu
        exact ⟨90, rfl, rfl, fun h' => absurd h' (by simp), fun _ => rfl⟩
      · intro hret; simp at hret
    | panicked =>
      dsimp only
      split
      · intro hret
        injection hret with hret
        injection hret with hb hu
        subst hb; subst hu
        exact ⟨90, rfl, rfl, fun h' => absurd h' (by simp), fun _ => rfl⟩
      · intro hret; simp at hret

theorem runFrom_receive (env : ℕ → (HttpRequest → NetAnswer) × ℕ)
    (hp mapi sip : String) : ∀ fuel i t,
    (∀ tk ∈ (runFrom env hp mapi sip fuel i t).ticks, tk.res.completed = true) →
    (runFrom env hp mapi sip fuel i t).ret.isSome = true →
    (runFrom env hp mapi sip fuel i t).outCloseTime.isSome = true := by
  intro fuel
  induction fuel with
  | zero => intro i t; simp [runFrom]
  | succ fuel ih =>
    intro i t hok
    simp only [runFrom] at hok ⊢
    rcases h : isSlaveRegistered (env i).1 hp mapi sip with ⟨res, reqs⟩
    rw [h] at hok
    cases res with
    | result b =>
      cases b
      · dsimp only at hok ⊢
        split
        · rename_i hg
          rw [if_pos hg] at hok
          dsimp only at hok ⊢
          exact ih (i + 1) (t + (env i).2 + 15)
            (fun tk htk => hok tk (List.mem_cons_of_mem _ htk))
        · intro; rfl
      · dsimp only
        split
        · intro; rfl
        · intro; rfl
    | exit1 =>
      dsimp only at hok
      split at hok <;>
        exact absurd (hok _ (List.mem_singleton.mpr rfl)) (by simp [TickResult.completed])
    | panicked =>
      dsimp only at hok
      split at hok <;>
        exact absurd (hok _ (List.mem_singleton.mpr rfl)) (by simp [TickResult.completed])

/-- Claim C7: the worker scan returns true iff some slave record's
`attributes.privateip` equals the target IP under exact, case-sensitive
string equality, and an empty (or absent, decoded as empty) slave list
yields false. -/
theorem C7_scan_iff : ∀ (slaves : List MesosSlave) (ip : String),
    (scanSlaves slaves ip = true ↔ ∃ sl ∈ slaves, sl.Attributes.PrivateIP = ip) ∧
    scanSlaves [] ip = false := by
  intro slaves ip
  constructor
  · simp [scanSlaves]
  · rfl

/-- Claim C9: every call of `queryMesosState` issues exactly one request,
a POST with empty body to the URL it was given, and the URL built for a
host, port and path is `http://{host}:{port}/{path}`. -/
theorem C9_single_post_request :
    (∀ env url, (queryMesosState env url).2 =
      [{ method := "POST", url := url, body := "" }]) ∧
    (∀ host port path, stateRequest (mkUrl (host ++ ":" ++ port) path) =
      { method := "POST",
        url := "http://" ++ host ++ ":" ++ port ++ "/" ++ path, body := "" }) := by
  constructor
  · intro env url
    unfold queryMesosState
    rcases env (stateRequest url) with _ | d
    · rfl
    · rcases d with _ | s <;> rfl
  · intro host port path
    simp [stateRequest, mkUrl, String.append_assoc]

/-- Claim C2 (code bug): a response body that fails to decode does not
stay below the supervisor — `isSlaveRegistered` runs `os.Exit(1)`
(line 111), aborting the whole process at the first failing tick, and
the enclosing run therefore never resolves to a boolean. -/
theorem C2_decode_error_aborts :
    isSlaveRegistered decodeFailNet "52.205.254.68:5050" "state" "172.31.34.94" =
      (.exit1, [stateRequest (mkUrl "52.205.254.68:5050" "state")]) ∧
    (waitForMesosSlaveRegistration envDecodeFail
      "52.205.254.68" "5050" "state" "172.31.34.94").ret = none := ⟨rfl, rfl⟩

/-- Claim C4 (code bug): a snapshot requiring a redirect whose `leader`
has no `'@'` makes the tick panic (index out of range at
`strings.Split(stateData.Leader, "@")[1]`, line 119) after exactly one
request, instead of reporting `RedirectParseError` and continuing. -/
theorem C4_no_separator_panics :
    isSlaveRegistered (fun _ => .body (some noAtState))
      "52.205.254.68:5050" "state" "172.31.34.94" =
      (.panicked, [stateRequest (mkUrl "52.205.254.68:5050" "state")]) := rfl

/-- Claim C8 (code bug): when the redirected second query's body fails to
decode, the error assigned at line 122 is never checked, `stateData` is
nil, and the worker scan at line 128 dereferences it — the tick panics
with both requests issued rather than reporting a failure before the
scan. -/
theorem C8_nil_snapshot_scan_panics :
    isSlaveRegistered redirectDecodeFailNet "10.0.0.1:5050" "state" "172.31.34.94" =
      (.panicked, [stateRequest (mkUrl "10.0.0.1:5050" "state"),
        stateRequest (mkUrl "10.0.0.2:5050" "state")]) := rfl

/-- Claim C3, counterexample: `mixedState` does not satisfy
`electedTime != 0 && leader == pid` (its leader differs from its pid), so
the claim demands exactly one follow-up query for it; the code instead
takes the `else` path — `electedTime` is non-zero, so the redirect
condition `electedTime == 0 && leader != pid` fails — and issues exactly
one request, using the snapshot unchanged. -/
theorem C3_counterexample :
    isSlaveRegistered (fun _ => .body (some mixedState))
      "10.0.0.1:5050" "state" "172.31.34.94" =
      (.result false, [stateRequest (mkUrl "10.0.0.1:5050" "state")]) ∧
    ¬(mixedState.ElectedTime ≠ 0 ∧ mixedState.Leader = mixedState.Pid) :=
  ⟨rfl, by decide⟩

/-- Claim C3 (amended): the redirect happens exactly when the snapshot
satisfies `electedTime == 0 && leader != pid`; every other snapshot is
used unchanged with no follow-up query, and when a redirect happens and
the leader string contains `'@'`, exactly one follow-up request is
issued, to the host:port parsed from `leader` with the same path. -/
theorem C3_redirect_amended (env : HttpRequest → NetAnswer)
    (hp api ip : String) (st : MesosState)
    (henv : env (stateRequest (mkUrl hp api)) = .body (some st)) :
    (¬(st.ElectedTime = 0 ∧ st.Leader ≠ st.Pid) →
      isSlaveRegistered env hp api ip =
        (.result (scanSlaves st.Slaves ip), [stateRequest (mkUrl hp api)])) ∧
    (st.ElectedTime = 0 ∧ st.Leader ≠ st.Pid →
      ∀ hp2, (splitAtSign st.Leader)[1]? = some hp2 →
        (isSlaveRegistered env hp api ip).2 =
          [stateRequest (mkUrl hp api), stateRequest (mkUrl hp2 api)]) := by
  constructor
  · intro hnot
    unfold isSlaveRegistered queryMesosState
    rw [henv]
    dsimp only
    rw [if_neg hnot]
  · intro hcond hp2 hsplit
    unfold isSlaveRegistered queryMesosState
    rw [henv]
    dsimp only
    rw [if_pos hcond, hsplit]
    dsimp only
    rcases h2 : env (stateRequest (mkUrl hp2 api)) with _ | (_ | s) <;> rfl

/-- Claim C3, witness: a follower snapshot pointing at `10.0.0.2:5050`
leads to exactly one follow-up request to that host with the same path. -/
theorem C3_redirect_witness :
    (isSlaveRegistered (fun _ => .body (some followerState))
      "10.0.0.1:5050" "state" "172.31.34.94").2 =
      [stateRequest (mkUrl "10.0.0.1:5050" "state"),
        stateRequest (mkUrl "10.0.0.2:5050" "state")] :=
  (C3_redirect_amended (fun _ => .body (some followerState))
      "10.0.0.1:5050" "state" "172.31.34.94" followerState rfl).2
    ⟨rfl, by decide⟩ "10.0.0.2:5050" (by decide)

/-- Claim C1, counterexample: with every response body undecodable, the
first tick runs `os.Exit(1)` at second 0 — no match is delivered, yet
the run does not return false at the timeout boundary (or at all): the
process aborts before the supervisor's race is decided. -/
theorem C1_counterexample :
    (waitForMesosSlaveRegistration envDecodeFail
      "10.0.0.1" "5050" "state" "172.31.34.94").resultSendTime = none ∧
    (waitForMesosSlaveRegistration envDecodeFail
      "10.0.0.1" "5050" "state" "172.31.34.94").ret = none := ⟨rfl, rfl⟩

/-- Claim C1 (amended): in every run in which all polling ticks complete
normally, the supervisor returns some boolean; it returns `true` at time
`m` iff the loop delivered a match on the result channel at `m`,
strictly before the 90-second timeout; any `false` return happens
exactly at the timeout boundary 90. (A tick that panics or exits makes
the process abort instead, so no boolean is returned at all.) -/
theorem C1_race_amended (env : ℕ → (HttpRequest → NetAnswer) × ℕ)
    (mip mport mapi sip : String) :
    ((∀ tk ∈ (waitForMesosSlaveRegistration env mip mport mapi sip).ticks,
        tk.res.completed = true) →
      (waitForMesosSlaveRegistration env mip mport mapi sip).ret.isSome = true) ∧
    (∀ m, (waitForMesosSlaveRegistration env mip mport mapi sip).ret = some (true, m) ↔
      ((waitForMesosSlaveRegistration env mip mport mapi sip).resultSendTime = some m ∧
        m < 90)) ∧
    (∀ u, (waitForMesosSlaveRegistration env mip mport mapi sip).ret = some (false, u) →
      u = 90) := by
  refine ⟨?_, ?_, ?_⟩
  · exact runFrom_ret_total env (mip ++ ":" ++ mport) mapi sip 6 0 0 (by omega) (by omega)
  · exact fun m => runFrom_true_iff env (mip ++ ":" ++ mport) mapi sip 6 0 0 m
  · exact fun u => runFrom_false_ret env (mip ++ ":" ++ mport) mapi sip 6 0 0 u

/-- Claim C1, witness: in the run where the first tick matches at second
0, the supervisor returns `(true, 0)`. -/
theorem C1_race_witness :
    (waitForMesosSlaveRegistration envMatchFast
      "10.0.0.1" "5050" "state" "172.31.34.94").ret = some (true, 0) :=
  ((C1_race_amended envMatchFast "10.0.0.1" "5050" "state" "172.31.34.94").2.1 0).mpr
    ⟨rfl, by omega⟩

/-- Claim C5: when a tick finds a match, the loop emits `true` on the
capacity-1 result channel (the only send of the run, so it never
blocks), the output channel gets closed at that same time, the matching
tick is the last one — no further queries are performed — and every
tick started no later than the match. -/
theorem C5_match_stops_loop (env : ℕ → (HttpRequest → NetAnswer) × ℕ)
    (mip mport mapi sip : String) : ∀ m,
    (waitForMesosSlaveRegistration env mip mport mapi sip).resultSendTime = some m →
    (waitForMesosSlaveRegistration env mip mport mapi sip).outCloseTime = some m ∧
    (∃ pre tkL, (waitForMesosSlaveRegistration env mip mport mapi sip).ticks =
        pre ++ [tkL] ∧ tkL.finish = m ∧ tkL.res = .result true) ∧
    ∀ tk ∈ (waitForMesosSlaveRegistration env mip mport mapi sip).ticks,
      tk.start ≤ m :=
  fun m hm =>
    (runFrom_match_stops env (mip ++ ":" ++ mport) mapi sip 6 0 0 m hm).2

/-- Claim C5, witness: the run in which the first tick matches at second
0 closes the output at 0 and consists of that single tick. -/
theorem C5_match_witness :
    (waitForMesosSlaveRegistration envMatchFast
      "10.0.0.1" "5050" "state" "172.31.34.94").outCloseTime = some 0 ∧
    (∃ pre tkL, (waitForMesosSlaveRegistration envMatchFast
        "10.0.0.1" "5050" "state" "172.31.34.94").ticks = pre ++ [tkL] ∧
      tkL.finish = 0 ∧ tkL.res = .result true) ∧
    ∀ tk ∈ (waitForMesosSlaveRegistration envMatchFast
        "10.0.0.1" "5050" "state" "172.31.34.94").ticks, tk.start ≤ 0 :=
  C5_match_stops_loop envMatchFast "10.0.0.1" "5050" "state" "172.31.34.94" 0 rfl

/-- Claim C6, counterexample: with a 200-second query in flight when the
supervisor sends the cancellation signal at second 90, the loop only
reaches its check point and closes the output channel at second 200 —
more than one 15-second interval after cancellation. -/
theorem C6_counterexample :
    (waitForMesosSlaveRegistration envNoMatchSlow
      "10.0.0.1" "5050" "state" "172.31.34.94").doneSendTime = some 90 ∧
    (waitForMesosSlaveRegistration envNoMatchSlow
      "10.0.0.1" "5050" "state" "172.31.34.94").outCloseTime = some 200 ∧
    ¬(200 ≤ 90 + 15) := ⟨rfl, rfl, by omega⟩

/-- Claim C6 (amended): once the cancellation signal is sent at time `D`,
no further tick starts (every tick of the run started at or before `D`;
cancellation is only observed at the inter-tick check point, never
mid-request), and if the loop reaches its next check point it closes the
output channel at `max D f` where `f` is the finish time of the last
tick — i.e. immediately at `D` if the loop was waiting out its interval,
or as soon as the in-flight query completes; this is within one
15-second interval only when that query finishes by `D + 15`. -/
theorem C6_cancel_amended (env : ℕ → (HttpRequest → NetAnswer) × ℕ)
    (mip mport mapi sip : String) : ∀ D,
    (waitForMesosSlaveRegistration env mip mport mapi sip).doneSendTime = some D →
    (∀ tk ∈ (waitForMesosSlaveRegistration env mip mport mapi sip).ticks,
      tk.start ≤ D) ∧
    ∀ c, (waitForMesosSlaveRegistration env mip mport mapi sip).outCloseTime = some c →
      ∃ pre tkL, (waitForMesosSlaveRegistration env mip mport mapi sip).ticks =
        pre ++ [tkL] ∧ c = max D tkL.finish :=
  fun D hD =>
    (runFrom_cancel env (mip ++ ":" ++ mport) mapi sip 6 0 0 D (by omega) hD).2

/-- Claim C6, witness: in the clean no-match run the cancellation signal
is sent at 90, every tick started by then, and the output closes at
`max 90 75 = 90`. -/
theorem C6_cancel_witness :
    (∀ tk ∈ (waitForMesosSlaveRegistration envNoMatchFast
        "10.0.0.1" "5050" "state" "172.31.34.94").ticks, tk.start ≤ 90) ∧
    ∀ c, (waitForMesosSlaveRegistration envNoMatchFast
        "10.0.0.1" "5050" "state" "172.31.34.94").outCloseTime = some c →
      ∃ pre tkL, (waitForMesosSlaveRegistration envNoMatchFast
          "10.0.0.1" "5050" "state" "172.31.34.94").ticks = pre ++ [tkL] ∧
        c = max 90 tkL.finish :=
  C6_cancel_amended envNoMatchFast "10.0.0.1" "5050" "state" "172.31.34.94" 90 rfl

/-- Claim C10, counterexample: when the only tick fails at the transport
and spans the timeout (crashing at second 100), the supervisor does send
the cancellation value at 90 and returns, but the background loop never
receives the stop signal — the process aborts before the loop's next
check point, so `close(out)` is never reached. -/
theorem C10_counterexample :
    (waitForMesosSlaveRegistration envTransportFailSlow
      "10.0.0.1" "5050" "state" "172.31.34.94").ret = some (false, 90) ∧
    (waitForMesosSlaveRegistration envTransportFailSlow
      "10.0.0.1" "5050" "state" "172.31.34.94").doneSendTime = some 90 ∧
    (waitForMesosSlaveRegistration envTransportFailSlow
      "10.0.0.1" "5050" "state" "172.31.34.94").outCloseTime = none :=
  ⟨rfl, rfl, rfl⟩

/-- Claim C10 (amended): whenever the supervisor returns — on the success
outcome as well as on timeout — it has sent exactly one value on the
capacity-1 cancellation channel (at the match-return time on success, at
90 on timeout; the single buffered send never blocks) and then closed
it; and in runs whose ticks all complete normally the background loop
does observe the signal and closes the output channel. -/
theorem C10_done_amended (env : ℕ → (HttpRequest → NetAnswer) × ℕ)
    (mip mport mapi sip : String) : ∀ b u,
    (waitForMesosSlaveRegistration env mip mport mapi sip).ret = some (b, u) →
    (∃ D, (waitForMesosSlaveRegistration env mip mport mapi sip).doneSendTime = some D ∧
      (waitForMesosSlaveRegistration env mip mport mapi sip).doneClosed = true ∧
      (b = true → D = u) ∧ (b = false → D = 90)) ∧
    ((∀ tk ∈ (waitForMesosSlaveRegistration env mip mport mapi sip).ticks,
        tk.res.completed = true) →
      (waitForMesosSlaveRegistration env mip mport mapi sip).outCloseTime.isSome = true) := by
  intro b u hret
  unfold waitForMesosSlaveRegistration at hret ⊢
  refine ⟨runFrom_done env (mip ++ ":" ++ mport) mapi sip 6 0 0 b u hret, ?_⟩
  intro hok
  exact runFrom_receive env (mip ++ ":" ++ mport) mapi sip 6 0 0 hok (by rw [hret]; rfl)

/-- Claim C10, witness: in the successful run ending at second 0 the
cancellation value is sent at 0 and the channel closed, and the loop
closes the output channel. -/
theorem C10_done_witness :
    (∃ D, (waitForMesosSlaveRegistration envMatchFast
        "10.0.0.1" "5050" "state" "172.31.34.94").doneSendTime = some D ∧
      (waitForMesosSlaveRegistration envMatchFast
        "10.0.0.1" "5050" "state" "172.31.34.94").doneClosed = true ∧
      (true = true → D = 0) ∧ (true = false → D = 90)) ∧
    ((∀ tk ∈ (waitForMesosSlaveRegistration envMatchFast
        "10.0.0.1" "5050" "state" "172.31.34.94").ticks,
        tk.res.completed = true) →
      (waitForMesosSlaveRegistration envMatchFast
        "10.0.0.1" "5050" "state" "172.31.34.94").outCloseTime.isSome = true) :=
  C10_done_amended envMatchFast "10.0.0.1" "5050" "state" "172.31.34.94" true 0 rfl
